import Mathlib

/-!
# Verification of the `DOMElement` presentation adapter

Shallow embedding of `src/dom-renderables/DOMElement.js`: the adapter's
presentation state, its diff-and-queue mutators, flush scheduling, the
mount/dismount lifecycle, the UI-event subscription manager, and the
inbound event handler, together with theorems settling the specification
claims about them.

The change queue is modelled exactly as in the source: a flat list onto
which an opcode is pushed followed by its operands.  External
collaborators are modelled at their boundary: the owning node is a record
of the data the adapter reads from it (`getLocation`, `getSizeMode`),
scheduling requests (`node.requestUpdate`) are counted, draw commands
sent during a drain (`node.sendDrawCommand`) are logged in order, and
callback dispatch (`CallbackStore.trigger`) is logged as a list of
delivered events.
-/

set_option maxHeartbeats 1000000

/-- Opaque symbolic command opcodes.  Modelled from the spec: the module
`core/Commands` is outside `src/`; the spec treats opcodes as an opaque
symbolic vocabulary, so they are embedded as an inductive type. -/
inductive Cmd
  | INIT_DOM
  | DOM_RENDER_SIZE
  | WITH
  | ADD_CLASS
  | REMOVE_CLASS
  | CHANGE_PROPERTY
  | CHANGE_ATTRIBUTE
  | CHANGE_CONTENT
  | GL_CUTOUT_STATE
  | CHANGE_TRANSFORM
  | CHANGE_SIZE
  | SUBSCRIBE
  | UNSUBSCRIBE
  | PREVENT_DEFAULT
  | ALLOW_DEFAULT
  deriving DecidableEq, Repr

/-- A JavaScript primitive value as it occurs in attribute/property maps
and as a command operand. -/
inductive JSVal
  | str (s : String)
  | num (n : Int)
  | bool (b : Bool)
  deriving DecidableEq, Repr

/-- One slot of the flat change queue / draw-command stream: either an
opcode or an operand value. -/
inductive QItem
  | cmd (c : Cmd)
  | val (v : JSVal)
  deriving DecidableEq, Repr

/-- Payload of an inbound event; `val` carries the two measurement
components consumed by the `resize` handler. -/
structure Payload where
  val : Int × Int
  deriving DecidableEq, Repr

/-- The data the adapter reads from its owning node:
`node.getLocation()` and `node.getSizeMode()`. -/
structure NodeData where
  location : String
  sizeMode : Nat × Nat × Nat
  deriving DecidableEq, Repr

/-- Modelled from the spec: the sizing-mode constant marking an axis as
"measured by the renderer" (`Size.RENDER`; the module `core/Size` is
outside `src/`).  Its numeric value is opaque to the adapter, which only
compares size-mode entries against it with strict inequality. -/
def Size.RENDER : Nat := 2

/-- JavaScript object lookup `o[k]`: `none` models `undefined`. -/
def jsGet (l : List (String × α)) (k : String) : Option α :=
  match l with
  | [] => none
  | (k', v) :: rest => if k' = k then some v else jsGet rest k

/-- JavaScript object write `o[k] = v`: updating an existing key keeps
its position, a new key is appended (JS string-key insertion order). -/
def jsSet (l : List (String × α)) (k : String) (v : α) : List (String × α) :=
  match l with
  | [] => [(k, v)]
  | (k', v') :: rest => if k' = k then (k', v) :: rest else (k', v') :: jsSet rest k v

/-- JavaScript truthiness of a possibly-absent boolean flag
(`undefined` and `false` are falsy). -/
def truthyB (o : Option Bool) : Bool :=
  match o with
  | some b => b
  | none => false

/-- JavaScript truthiness of a possibly-absent primitive value
(`undefined`, `''`, `0` and `false` are falsy). -/
def truthyV (o : Option JSVal) : Bool :=
  match o with
  | some (JSVal.str s) => s ≠ ""
  | some (JSVal.num n) => n ≠ 0
  | some (JSVal.bool b) => b
  | none => false

/-- Int32Array element assignment: the written value wrapped to a
signed 32-bit integer. -/
def toInt32 (n : Int) : Int :=
  (n + 2 ^ 31) % 2 ^ 32 - 2 ^ 31

/-- Embedding of `DOMElement.Spec`: the presentation state (`this.value`). -/
structure DOMElement.Spec where
  tagName : String
  renderSize : Int × Int
  classes : List (String × Bool)
  attributes : List (String × JSVal)
  properties : List (String × JSVal)
  content : String
  cutout : Bool
  deriving DecidableEq, Repr

/-- The adapter.  Fields mirror the instance fields of the source
constructor; `sent`, `requests` and `callbacks` log the boundary effects
(`node.sendDrawCommand`, `node.requestUpdate`,
`CallbackStore.trigger`). -/
structure DOMElement where
  _node : Option NodeData
  _id : Option String
  _requestingUpdate : Bool
  _renderSized : Bool
  _requestingRenderSize : Bool
  _requestRenderSize : Bool
  _changeQueue : List QItem
  value : DOMElement.Spec
  _UIEvents : List String
  _initialized : Bool
  _inDraw : Bool
  sent : List QItem
  requests : Nat
  callbacks : List (String × Payload)
  deriving DecidableEq, Repr

/-- Constructor options. -/
structure DOMOptions where
  tagName : Option String
  classes : Option (List (String × Bool))
  attributes : Option (List (String × JSVal))
  properties : Option (List (String × JSVal))
  content : Option String
  cutout : Option Bool
  id : Option JSVal
  deriving DecidableEq, Repr

/-- All-absent options (`new DOMElement(node)` with no options object). -/
def DOMOptions.empty : DOMOptions :=
  ⟨none, none, none, none, none, none, none⟩

/-- Embedding of the `DOMElement.Spec` constructor: defaults, uppercased tag, the sentinel
marker class, and the deprecated `id` option copied into `attributes`. -/
def DOMElement.Spec.new (options : DOMOptions) : DOMElement.Spec :=
  let classes := jsSet (options.classes.getD []) "famous-dom-element" true
  let attributes :=
    match options.id with
    | some i => if truthyV (some i) then jsSet (options.attributes.getD []) "id" i
                else options.attributes.getD []
    | none => options.attributes.getD []
  { tagName := (options.tagName.map String.toUpper).getD "DIV"
    renderSize := (0, 0)
    classes := classes
    attributes := attributes
    properties := options.properties.getD []
    content := options.content.getD ""
    cutout := options.cutout.getD true }

/-- The `DOMElement` constructor before any node is attached
(`this._node = null`, empty queue, flags clear). -/
def DOMElement.new (options : DOMOptions) : DOMElement :=
  { _node := none
    _id := none
    _requestingUpdate := false
    _renderSized := false
    _requestingRenderSize := false
    _requestRenderSize := false
    _changeQueue := []
    value := DOMElement.Spec.new options
    _UIEvents := []
    _initialized := false
    _inDraw := false
    sent := []
    requests := 0
    callbacks := [] }

/-- Embedding of `_requestUpdate`: issue a scheduling request to the owning node
unless one is already outstanding or no node is bound. -/
def DOMElement._requestUpdate (s : DOMElement) : DOMElement :=
  if s._requestingUpdate = false ∧ s._node.isSome then
    { s with requests := s.requests + 1, _requestingUpdate := true }
  else s

/-- Embedding of `setCutoutState`: diff guard, state write, conditional enqueue; note
the source's scheduling line is `if (this._requestingUpdate)
this._requestUpdate();` (not negated). -/
def DOMElement.setCutoutState (s : DOMElement) (usesCutout : Bool) : DOMElement :=
  if s.value.cutout ≠ usesCutout ∨ s._inDraw = true then
    let s1 := { s with value := { s.value with cutout := usesCutout } }
    let s2 := if s1._initialized then
        { s1 with _changeQueue := s1._changeQueue ++
            [QItem.cmd Cmd.GL_CUTOUT_STATE, QItem.val (JSVal.bool usesCutout)] }
      else s1
    if s2._requestingUpdate then s2._requestUpdate else s2
  else s

/-- Embedding of `addClass`. -/
def DOMElement.addClass (s : DOMElement) (value : String) : DOMElement :=
  if truthyB (jsGet s.value.classes value) = false ∨ s._inDraw = true then
    let s1 := { s with value := { s.value with classes := jsSet s.value.classes value true } }
    let s2 := if s1._initialized then
        { s1 with _changeQueue := s1._changeQueue ++
            [QItem.cmd Cmd.ADD_CLASS, QItem.val (JSVal.str value)] }
      else s1
    if s2._requestingUpdate = false then s2._requestUpdate else s2
  else s

/-- Embedding of `removeClass`: as in the source, the class map write is
`this.value.classes[value] = true`. -/
def DOMElement.removeClass (s : DOMElement) (value : String) : DOMElement :=
  if truthyB (jsGet s.value.classes value) = true ∨ s._inDraw = true then
    let s1 := { s with value := { s.value with classes := jsSet s.value.classes value true } }
    let s2 := if s1._initialized then
        { s1 with _changeQueue := s1._changeQueue ++
            [QItem.cmd Cmd.REMOVE_CLASS, QItem.val (JSVal.str value)] }
      else s1
    if s2._requestingUpdate = false then s2._requestUpdate else s2
  else s

/-- Embedding of `hasClass`. -/
def DOMElement.hasClass (s : DOMElement) (value : String) : Bool :=
  truthyB (jsGet s.value.classes value)

/-- Embedding of `setAttribute`. -/
def DOMElement.setAttribute (s : DOMElement) (name : String) (value : JSVal) : DOMElement :=
  if jsGet s.value.attributes name ≠ some value ∨ s._inDraw = true then
    let s1 := { s with value := { s.value with attributes := jsSet s.value.attributes name value } }
    let s2 := if s1._initialized then
        { s1 with _changeQueue := s1._changeQueue ++
            [QItem.cmd Cmd.CHANGE_ATTRIBUTE, QItem.val (JSVal.str name), QItem.val value] }
      else s1
    if s2._requestingUpdate = false then s2._requestUpdate else s2
  else s

/-- Embedding of `setProperty`: additionally marks `_requestingRenderSize` when the
adapter is in render-size tracking mode. -/
def DOMElement.setProperty (s : DOMElement) (name : String) (value : JSVal) : DOMElement :=
  if jsGet s.value.properties name ≠ some value ∨ s._inDraw = true then
    let s1 := { s with value := { s.value with properties := jsSet s.value.properties name value } }
    let s2 := if s1._initialized then
        { s1 with _changeQueue := s1._changeQueue ++
            [QItem.cmd Cmd.CHANGE_PROPERTY, QItem.val (JSVal.str name), QItem.val value] }
      else s1
    let s3 := if s2._renderSized then { s2 with _requestingRenderSize := true } else s2
    if s3._requestingUpdate = false then s3._requestUpdate else s3
  else s

/-- Embedding of `setContent`. -/
def DOMElement.setContent (s : DOMElement) (content : String) : DOMElement :=
  if s.value.content ≠ content ∨ s._inDraw = true then
    let s1 := { s with value := { s.value with content := content } }
    let s2 := if s1._initialized then
        { s1 with _changeQueue := s1._changeQueue ++
            [QItem.cmd Cmd.CHANGE_CONTENT, QItem.val (JSVal.str content)] }
      else s1
    let s3 := if s2._renderSized then { s2 with _requestingRenderSize := true } else s2
    if s3._requestingUpdate = false then s3._requestUpdate else s3
  else s

/-- Embedding of `onTransformChange`: the argument stands for
`transform.getLocalTransform()`, the flat list of matrix scalars. -/
def DOMElement.onTransformChange (s : DOMElement) (transform : List Int) : DOMElement :=
  let s1 := { s with _changeQueue := s._changeQueue ++
      ([QItem.cmd Cmd.CHANGE_TRANSFORM] ++ transform.map (fun x => QItem.val (JSVal.num x))) }
  if s1._requestingUpdate = false then s1._requestUpdate else s1

/-- Embedding of `onSizeChange`: `none` models the `TypeError` raised by
`this._node.getSizeMode()` when no node is bound while initialized. -/
def DOMElement.onSizeChange (s : DOMElement) (width height : Int) : Option DOMElement :=
  let step1 : Option DOMElement :=
    if s._initialized then
      match s._node with
      | none => none
      | some nd =>
        let sizedX := nd.sizeMode.1 ≠ Size.RENDER
        let sizedY := nd.sizeMode.2.1 ≠ Size.RENDER
        some { s with _changeQueue := s._changeQueue ++
            [QItem.cmd Cmd.CHANGE_SIZE,
             if sizedX then QItem.val (JSVal.num width) else QItem.val (JSVal.bool sizedX),
             if sizedY then QItem.val (JSVal.num height) else QItem.val (JSVal.bool sizedY)] }
    else some s
  step1.map (fun s2 => if s2._requestingUpdate = false then s2._requestUpdate else s2)

/-- Embedding of `_subscribe`. -/
def DOMElement._subscribe (s : DOMElement) (uiEvent : String) : DOMElement :=
  let s1 := if s._initialized then
      { s with _changeQueue := s._changeQueue ++
          [QItem.cmd Cmd.SUBSCRIBE, QItem.val (JSVal.str uiEvent)] }
    else s
  if s1._requestingUpdate = false then s1._requestUpdate else s1

/-- Embedding of `_unsubscribe`. -/
def DOMElement._unsubscribe (s : DOMElement) (uiEvent : String) : DOMElement :=
  let s1 := if s._initialized then
      { s with _changeQueue := s._changeQueue ++
          [QItem.cmd Cmd.UNSUBSCRIBE, QItem.val (JSVal.str uiEvent)] }
    else s
  if s1._requestingUpdate = false then s1._requestUpdate else s1

/-- Embedding of `onAddUIEvent`: the source only calls `_subscribe`; nothing is added
to `_UIEvents`. -/
def DOMElement.onAddUIEvent (s : DOMElement) (uiEvent : String) : DOMElement :=
  s._subscribe uiEvent

/-- Embedding of `onRemoveUIEvent`. -/
def DOMElement.onRemoveUIEvent (s : DOMElement) (uiEvent : String) : DOMElement :=
  if uiEvent ∈ s._UIEvents then
    let s1 := s._unsubscribe uiEvent
    { s1 with _UIEvents := s1._UIEvents.erase uiEvent }
  else if s._inDraw then
    s._unsubscribe uiEvent
  else s

/-- Embedding of `preventDefault`. -/
def DOMElement.preventDefault (s : DOMElement) (uiEvent : String) : DOMElement :=
  let s1 := if s._initialized then
      { s with _changeQueue := s._changeQueue ++
          [QItem.cmd Cmd.PREVENT_DEFAULT, QItem.val (JSVal.str uiEvent)] }
    else s
  if s1._requestingUpdate = false then s1._requestUpdate else s1

/-- Embedding of `allowDefault`. -/
def DOMElement.allowDefault (s : DOMElement) (uiEvent : String) : DOMElement :=
  let s1 := if s._initialized then
      { s with _changeQueue := s._changeQueue ++
          [QItem.cmd Cmd.ALLOW_DEFAULT, QItem.val (JSVal.str uiEvent)] }
    else s
  if s1._requestingUpdate = false then s1._requestUpdate else s1

/-- Embedding of `onUpdate` (the drain): the source evaluates `node.getLocation()`
before its null check on `node`, so `none` (a `TypeError`) results
whenever no node is bound. -/
def DOMElement.onUpdate (s : DOMElement) : Option DOMElement :=
  match s._node with
  | none => none
  | some node =>
    let location := node.location
    let s1 :=
      if s._changeQueue.length ≠ 0 then
        let drained := { s with
          sent := s.sent ++ [QItem.cmd Cmd.WITH, QItem.val (JSVal.str location)] ++ s._changeQueue
          _changeQueue := [] }
        if drained._requestRenderSize then
          { drained with
            sent := drained.sent ++ [QItem.cmd Cmd.DOM_RENDER_SIZE, QItem.val (JSVal.str location)]
            _requestRenderSize := false }
        else drained
      else s
    some { s1 with _requestingUpdate := false }

/-- Embedding of `reset`: unguarded pushes of clearing commands for every class,
property and attribute key, the content if truthy, and the cutout. -/
def DOMElement.reset (s : DOMElement) : DOMElement :=
  let q1 := (s.value.classes.map (fun kv =>
    [QItem.cmd Cmd.REMOVE_CLASS, QItem.val (JSVal.str kv.1)])).flatten
  let q2 := (s.value.properties.map (fun kv =>
    [QItem.cmd Cmd.CHANGE_PROPERTY, QItem.val (JSVal.str kv.1), QItem.val (JSVal.str "")])).flatten
  let q3 := (s.value.attributes.map (fun kv =>
    [QItem.cmd Cmd.CHANGE_ATTRIBUTE, QItem.val (JSVal.str kv.1), QItem.val (JSVal.str "")])).flatten
  let q4 := if s.value.content ≠ "" then
      [QItem.cmd Cmd.CHANGE_CONTENT, QItem.val (JSVal.str "")]
    else []
  let q5 := [QItem.cmd Cmd.GL_CUTOUT_STATE, QItem.val (JSVal.bool false)]
  { s with _changeQueue := s._changeQueue ++ q1 ++ q2 ++ q3 ++ q4 ++ q5 }

/-- Embedding of `onDismount`: reset, hide, drain, then clear `initialized`; faults
(`none`) if the drain faults. -/
def DOMElement.onDismount (s : DOMElement) : Option DOMElement :=
  let s1 := s.reset
  let s2 := s1.setProperty "display" (JSVal.str "none")
  (s2.onUpdate).map (fun s3 => { s3 with _initialized := false })

/-- Embedding of `onReceive`: the `resize` event overwrites `renderSize` from the
payload (Int32Array writes) and arms a flush; every event is dispatched
through the callback registry. -/
def DOMElement.onReceive (s : DOMElement) (event : String) (payload : Payload) : DOMElement :=
  let s1 :=
    if event = "resize" then
      let su := { s with value := { s.value with
        renderSize := (toInt32 payload.val.1, toInt32 payload.val.2) } }
      if su._requestingUpdate = false then su._requestUpdate else su
    else s
  { s1 with callbacks := s1.callbacks ++ [(event, payload)] }

/-- A diff-and-queue mutation, used to state properties of mutation
sequences. -/
inductive Mutation
  | prop (k : String) (v : JSVal)
  | attr (k : String) (v : JSVal)
  | content (c : String)
  | classAdd (c : String)
  | classRemove (c : String)
  | cutout (b : Bool)
  deriving DecidableEq, Repr

/-- Run one mutation. -/
def applyMutation (s : DOMElement) (m : Mutation) : DOMElement :=
  match m with
  | Mutation.prop k v => s.setProperty k v
  | Mutation.attr k v => s.setAttribute k v
  | Mutation.content c => s.setContent c
  | Mutation.classAdd c => s.addClass c
  | Mutation.classRemove c => s.removeClass c
  | Mutation.cutout b => s.setCutoutState b

/-- Run a sequence of mutations in order. -/
def runMutations (s : DOMElement) (ms : List Mutation) : DOMElement :=
  ms.foldl applyMutation s

/-! ## Concrete fixtures -/

/-- A concrete owning node. -/
def nd0 : NodeData := { location := "body/0", sizeMode := (1, 1, 1) }

/-- A concrete mounted adapter: node bound, initialized, empty queue, no
outstanding scheduling request, class `foo` present. -/
def mounted0 : DOMElement :=
  { _node := some nd0
    _id := some "body/0#0"
    _requestingUpdate := false
    _renderSized := false
    _requestingRenderSize := false
    _requestRenderSize := false
    _changeQueue := []
    value := { tagName := "DIV", renderSize := (0, 0),
               classes := [("famous-dom-element", true), ("foo", true)],
               attributes := [], properties := [], content := "", cutout := true }
    _UIEvents := []
    _initialized := true
    _inDraw := false
    sent := []
    requests := 0
    callbacks := [] }

/-- A freshly constructed, never-mounted adapter. -/
def fresh0 : DOMElement := DOMElement.new DOMOptions.empty

/-! ## Theorems about the claims -/

/-- C1: the claim says `removeClass(c)` on a present class records `c` as
absent and makes `hasClass(c)` false.  On the code, `removeClass` performs
the same map write as `addClass` (`classes[c] = true`): at the failing
input the class stays recorded as present and `hasClass` stays true, even
though the remove-class command is enqueued. -/
theorem removeClass_marks_class_present :
    DOMElement.hasClass (DOMElement.removeClass mounted0 "foo") "foo" = true ∧
    jsGet (DOMElement.removeClass mounted0 "foo").value.classes "foo" = some true ∧
    (DOMElement.removeClass mounted0 "foo")._changeQueue =
      [QItem.cmd Cmd.REMOVE_CLASS, QItem.val (JSVal.str "foo")] := by decide

/-- C2: the claim says a property mutation in render-size tracking mode
sets a size-measurement mark that the next drain consumes, appending a
measurement-request command and the location token.  On the code, the
mutator sets `_requestingRenderSize` while the drain tests the distinct,
never-set field `_requestRenderSize`: the drain emits no
`DOM_RENDER_SIZE` command and the mark stays set. -/
theorem renderSize_mark_never_flushed :
    (DOMElement.setProperty { mounted0 with _renderSized := true } "color"
        (JSVal.str "red"))._requestingRenderSize = true ∧
    (DOMElement.onUpdate (DOMElement.setProperty { mounted0 with _renderSized := true } "color"
        (JSVal.str "red"))).map
      (fun t => (t._requestingRenderSize, decide (QItem.cmd Cmd.DOM_RENDER_SIZE ∈ t.sent))) =
      some (true, false) := by decide

/-- C3: the claim says `setCutoutState(v)` with a changed value and no
outstanding scheduling request issues a scheduling request.  On the code
the guard is inverted (`if (this._requestingUpdate) this._requestUpdate()`,
a no-op branch): at the failing input the command is enqueued but no
request is issued and none becomes outstanding. -/
theorem setCutoutState_requests_nothing :
    (DOMElement.setCutoutState mounted0 false).requests = mounted0.requests ∧
    (DOMElement.setCutoutState mounted0 false)._requestingUpdate = false ∧
    (DOMElement.setCutoutState mounted0 false)._changeQueue =
      [QItem.cmd Cmd.GL_CUTOUT_STATE, QItem.val (JSVal.bool false)] := by decide

/-- C4 counterexample: the claim says no operation appends a command
while `initialized` is false, in particular `onTransformChange`.  On the
code `onTransformChange` pushes the transform command unconditionally: a
freshly constructed (uninitialized) adapter gets a non-empty queue. -/
theorem onTransformChange_appends_uninitialized :
    fresh0._initialized = false ∧ fresh0._changeQueue = [] ∧
    (DOMElement.onTransformChange fresh0
        [1, 0, 0, 0, 0, 1, 0, 0, 0, 0, 1, 0, 0, 0, 0, 1])._changeQueue ≠ [] := by decide

/-- C5: the claim says dismount on an already detached adapter is a
fault-free no-op.  On the code, `onDismount` on a never-mounted adapter
first appends teardown commands via `reset` and then faults: the drain
evaluates `node.getLocation()` before its null check, a `TypeError`
(modelled as `none`). -/
theorem onDismount_detached_faults :
    DOMElement.onDismount fresh0 = none ∧
    (DOMElement.reset fresh0)._changeQueue ≠ [] := by decide

/-- C6: the claim says subscribing records the event name in the tracked
subscription set so that a later unsubscribe finds it, removes it and
emits an unsubscribe command.  On the code `onAddUIEvent` only calls
`_subscribe` and never inserts into `_UIEvents`: after subscribing, the
tracked set is still empty and the unsubscribe (outside forced resync)
finds nothing, emits nothing and removes nothing. -/
theorem uiEvents_never_tracked :
    (DOMElement.onAddUIEvent mounted0 "click")._UIEvents = [] ∧
    (DOMElement.onAddUIEvent mounted0 "click")._changeQueue =
      [QItem.cmd Cmd.SUBSCRIBE, QItem.val (JSVal.str "click")] ∧
    (DOMElement.onRemoveUIEvent (DOMElement.onAddUIEvent mounted0 "click") "click")._changeQueue =
      (DOMElement.onAddUIEvent mounted0 "click")._changeQueue ∧
    (DOMElement.onRemoveUIEvent (DOMElement.onAddUIEvent mounted0 "click") "click")._UIEvents =
      [] := by decide

/-- C9: the claim says every sequence of mutations between two drains on
a mounted adapter issues exactly one scheduling request (the first
mutation issues it).  On the code, the sequence consisting of the single
mutation `setCutoutState(false)` issues zero scheduling requests while
still enqueuing a command, because of the inverted scheduling guard in
`setCutoutState`; no request ever becomes outstanding. -/
theorem cutout_mutation_sequence_no_request :
    (runMutations mounted0 [Mutation.cutout false]).requests = 0 ∧
    (runMutations mounted0 [Mutation.cutout false])._changeQueue ≠ [] ∧
    (runMutations mounted0 [Mutation.cutout false])._requestingUpdate = false := by decide

/-! ## Helper lemmas -/

theorem jsGet_jsSet (l : List (String × α)) (k : String) (v : α) :
    jsGet (jsSet l k v) k = some v := by
  induction l with
  | nil => simp [jsSet, jsGet]
  | cons hd tl ih =>
    obtain ⟨k', v'⟩ := hd
    by_cases h : k' = k
    · simp [jsSet, jsGet, h]
    · simp [jsSet, jsGet, h, ih]

theorem requestUpdate_changeQueue (s : DOMElement) :
    s._requestUpdate._changeQueue = s._changeQueue := by
  unfold DOMElement._requestUpdate; split <;> rfl

theorem requestUpdate_value (s : DOMElement) :
    s._requestUpdate.value = s.value := by
  unfold DOMElement._requestUpdate; split <;> rfl

theorem requestUpdate_inDraw (s : DOMElement) :
    s._requestUpdate._inDraw = s._inDraw := by
  unfold DOMElement._requestUpdate; split <;> rfl

theorem requestUpdate_callbacks (s : DOMElement) :
    s._requestUpdate.callbacks = s.callbacks := by
  unfold DOMElement._requestUpdate; split <;> rfl

theorem setProperty_queue_uninit (s : DOMElement) (h : s._initialized = false)
    (k : String) (v : JSVal) :
    (s.setProperty k v)._changeQueue = s._changeQueue := by
  simp only [DOMElement.setProperty]
  split_ifs <;> simp_all [requestUpdate_changeQueue]

theorem setAttribute_queue_uninit (s : DOMElement) (h : s._initialized = false)
    (k : String) (v : JSVal) :
    (s.setAttribute k v)._changeQueue = s._changeQueue := by
  simp only [DOMElement.setAttribute]
  split_ifs <;> simp_all [requestUpdate_changeQueue]

theorem setContent_queue_uninit (s : DOMElement) (h : s._initialized = false)
    (c : String) :
    (s.setContent c)._changeQueue = s._changeQueue := by
  simp only [DOMElement.setContent]
  split_ifs <;> simp_all [requestUpdate_changeQueue]

theorem addClass_queue_uninit (s : DOMElement) (h : s._initialized = false)
    (c : String) :
    (s.addClass c)._changeQueue = s._changeQueue := by
  simp only [DOMElement.addClass]
  split_ifs <;> simp_all [requestUpdate_changeQueue]

theorem removeClass_queue_uninit (s : DOMElement) (h : s._initialized = false)
    (c : String) :
    (s.removeClass c)._changeQueue = s._changeQueue := by
  simp only [DOMElement.removeClass]
  split_ifs <;> simp_all [requestUpdate_changeQueue]

theorem setCutoutState_queue_uninit (s : DOMElement) (h : s._initialized = false)
    (b : Bool) :
    (s.setCutoutState b)._changeQueue = s._changeQueue := by
  simp only [DOMElement.setCutoutState]
  split_ifs <;> simp_all [requestUpdate_changeQueue]

theorem subscribe_queue_uninit (s : DOMElement) (h : s._initialized = false)
    (e : String) :
    (s._subscribe e)._changeQueue = s._changeQueue := by
  simp only [DOMElement._subscribe]
  split_ifs <;> simp_all [requestUpdate_changeQueue]

theorem unsubscribe_queue_uninit (s : DOMElement) (h : s._initialized = false)
    (e : String) :
    (s._unsubscribe e)._changeQueue = s._changeQueue := by
  simp only [DOMElement._unsubscribe]
  split_ifs <;> simp_all [requestUpdate_changeQueue]

theorem preventDefault_queue_uninit (s : DOMElement) (h : s._initialized = false)
    (e : String) :
    (s.preventDefault e)._changeQueue = s._changeQueue := by
  simp only [DOMElement.preventDefault]
  split_ifs <;> simp_all [requestUpdate_changeQueue]

theorem allowDefault_queue_uninit (s : DOMElement) (h : s._initialized = false)
    (e : String) :
    (s.allowDefault e)._changeQueue = s._changeQueue := by
  simp only [DOMElement.allowDefault]
  split_ifs <;> simp_all [requestUpdate_changeQueue]

theorem onTransformChange_changeQueue (s : DOMElement) (t : List Int) :
    (s.onTransformChange t)._changeQueue = s._changeQueue ++
      ([QItem.cmd Cmd.CHANGE_TRANSFORM] ++ t.map (fun x => QItem.val (JSVal.num x))) := by
  simp only [DOMElement.onTransformChange]
  split_ifs <;> simp_all [requestUpdate_changeQueue]

/-- C4 (amended): while `initialized` is false, none of the guarded
diff-and-queue mutators or subscription emitters (`setProperty`,
`setAttribute`, `setContent`, `addClass`, `removeClass`,
`setCutoutState`, `_subscribe`, `_unsubscribe`, `preventDefault`,
`allowDefault`) appends a command to the change queue; however
`onTransformChange` appends its transform command unconditionally, so
the invariant does not extend to it (nor to `reset` or the dismount
path, which push unguarded). -/
theorem uninitialized_append_behaviour (s : DOMElement)
    (h : s._initialized = false) (k : String) (v : JSVal) (c : String)
    (cl : String) (b : Bool) (e : String) (t : List Int) :
    (s.setProperty k v)._changeQueue = s._changeQueue ∧
    (s.setAttribute k v)._changeQueue = s._changeQueue ∧
    (s.setContent c)._changeQueue = s._changeQueue ∧
    (s.addClass cl)._changeQueue = s._changeQueue ∧
    (s.removeClass cl)._changeQueue = s._changeQueue ∧
    (s.setCutoutState b)._changeQueue = s._changeQueue ∧
    (s._subscribe e)._changeQueue = s._changeQueue ∧
    (s._unsubscribe e)._changeQueue = s._changeQueue ∧
    (s.preventDefault e)._changeQueue = s._changeQueue ∧
    (s.allowDefault e)._changeQueue = s._changeQueue ∧
    (s.onTransformChange t)._changeQueue = s._changeQueue ++
      ([QItem.cmd Cmd.CHANGE_TRANSFORM] ++ t.map (fun x => QItem.val (JSVal.num x))) :=
  ⟨setProperty_queue_uninit s h k v, setAttribute_queue_uninit s h k v,
   setContent_queue_uninit s h c, addClass_queue_uninit s h cl,
   removeClass_queue_uninit s h cl, setCutoutState_queue_uninit s h b,
   subscribe_queue_uninit s h e, unsubscribe_queue_uninit s h e,
   preventDefault_queue_uninit s h e, allowDefault_queue_uninit s h e,
   onTransformChange_changeQueue s t⟩

/-- Witness for the amended C4 theorem at a concrete uninitialized
adapter and concrete keys. -/
theorem uninitialized_append_behaviour_witness :
    fresh0._initialized = false ∧
    ((fresh0.setProperty "k" (JSVal.str "v"))._changeQueue = fresh0._changeQueue ∧
     (fresh0.setAttribute "k" (JSVal.str "v"))._changeQueue = fresh0._changeQueue ∧
     (fresh0.setContent "c")._changeQueue = fresh0._changeQueue ∧
     (fresh0.addClass "cl")._changeQueue = fresh0._changeQueue ∧
     (fresh0.removeClass "cl")._changeQueue = fresh0._changeQueue ∧
     (fresh0.setCutoutState false)._changeQueue = fresh0._changeQueue ∧
     (fresh0._subscribe "e")._changeQueue = fresh0._changeQueue ∧
     (fresh0._unsubscribe "e")._changeQueue = fresh0._changeQueue ∧
     (fresh0.preventDefault "e")._changeQueue = fresh0._changeQueue ∧
     (fresh0.allowDefault "e")._changeQueue = fresh0._changeQueue ∧
     (fresh0.onTransformChange [3])._changeQueue = fresh0._changeQueue ++
       ([QItem.cmd Cmd.CHANGE_TRANSFORM] ++ [3].map (fun x => QItem.val (JSVal.num x)))) :=
  ⟨rfl, uninitialized_append_behaviour fresh0 rfl "k" (JSVal.str "v") "c" "cl" false "e" [3]⟩

theorem setProperty_inDraw (s : DOMElement) (k : String) (v : JSVal) :
    (s.setProperty k v)._inDraw = s._inDraw := by
  simp only [DOMElement.setProperty]
  split_ifs <;> simp_all [requestUpdate_inDraw]

theorem setProperty_get (s : DOMElement) (k : String) (v : JSVal) :
    jsGet (s.setProperty k v).value.properties k = some v := by
  simp only [DOMElement.setProperty]
  split_ifs with h <;> simp_all [requestUpdate_value, jsGet_jsSet]

theorem setProperty_self (s : DOMElement) (k : String) (v : JSVal)
    (hget : jsGet s.value.properties k = some v) (hdraw : s._inDraw = false) :
    s.setProperty k v = s := by
  simp [DOMElement.setProperty, hget, hdraw]

theorem setProperty_idem (s : DOMElement) (h : s._inDraw = false) (k : String) (v : JSVal) :
    (s.setProperty k v).setProperty k v = s.setProperty k v :=
  setProperty_self _ k v (setProperty_get s k v) (by rw [setProperty_inDraw]; exact h)

theorem setProperty_queue_delta (s : DOMElement) (k : String) (v : JSVal) :
    ∃ d, (s.setProperty k v)._changeQueue = s._changeQueue ++ d ∧
      (d = [] ∨ d = [QItem.cmd Cmd.CHANGE_PROPERTY, QItem.val (JSVal.str k), QItem.val v]) := by
  by_cases hg : jsGet s.value.properties k ≠ some v ∨ s._inDraw = true
  · by_cases hi : s._initialized = true
    · refine ⟨[QItem.cmd Cmd.CHANGE_PROPERTY, QItem.val (JSVal.str k), QItem.val v], ?_, Or.inr rfl⟩
      simp only [DOMElement.setProperty, if_pos hg]
      split_ifs <;> simp_all [requestUpdate_changeQueue]
    · refine ⟨[], ?_, Or.inl rfl⟩
      simp only [DOMElement.setProperty, if_pos hg]
      split_ifs <;> simp_all [requestUpdate_changeQueue]
  · refine ⟨[], ?_, Or.inl rfl⟩
    simp [DOMElement.setProperty, if_neg hg]

theorem setAttribute_inDraw (s : DOMElement) (k : String) (v : JSVal) :
    (s.setAttribute k v)._inDraw = s._inDraw := by
  simp only [DOMElement.setAttribute]
  split_ifs <;> simp_all [requestUpdate_inDraw]

theorem setAttribute_get (s : DOMElement) (k : String) (v : JSVal) :
    jsGet (s.setAttribute k v).value.attributes k = some v := by
  simp only [DOMElement.setAttribute]
  split_ifs with h <;> simp_all [requestUpdate_value, jsGet_jsSet]

theorem setAttribute_self (s : DOMElement) (k : String) (v : JSVal)
    (hget : jsGet s.value.attributes k = some v) (hdraw : s._inDraw = false) :
    s.setAttribute k v = s := by
  simp [DOMElement.setAttribute, hget, hdraw]

theorem setAttribute_idem (s : DOMElement) (h : s._inDraw = false) (k : String) (v : JSVal) :
    (s.setAttribute k v).setAttribute k v = s.setAttribute k v :=
  setAttribute_self _ k v (setAttribute_get s k v) (by rw [setAttribute_inDraw]; exact h)

theorem setAttribute_queue_delta (s : DOMElement) (k : String) (v : JSVal) :
    ∃ d, (s.setAttribute k v)._changeQueue = s._changeQueue ++ d ∧
      (d = [] ∨ d = [QItem.cmd Cmd.CHANGE_ATTRIBUTE, QItem.val (JSVal.str k), QItem.val v]) := by
  by_cases hg : jsGet s.value.attributes k ≠ some v ∨ s._inDraw = true
  · by_cases hi : s._initialized = true
    · refine ⟨[QItem.cmd Cmd.CHANGE_ATTRIBUTE, QItem.val (JSVal.str k), QItem.val v], ?_, Or.inr rfl⟩
      simp only [DOMElement.setAttribute, if_pos hg]
      split_ifs <;> simp_all [requestUpdate_changeQueue]
    · refine ⟨[], ?_, Or.inl rfl⟩
      simp only [DOMElement.setAttribute, if_pos hg]
      split_ifs <;> simp_all [requestUpdate_changeQueue]
  · refine ⟨[], ?_, Or.inl rfl⟩
    simp [DOMElement.setAttribute, if_neg hg]

theorem setContent_inDraw (s : DOMElement) (c : String) :
    (s.setContent c)._inDraw = s._inDraw := by
  simp only [DOMElement.setContent]
  split_ifs <;> simp_all [requestUpdate_inDraw]

theorem setContent_content (s : DOMElement) (c : String) :
    (s.setContent c).value.content = c := by
  simp only [DOMElement.setContent]
  split_ifs with h <;> simp_all [requestUpdate_value]

theorem setContent_self (s : DOMElement) (c : String)
    (hc : s.value.content = c) (hdraw : s._inDraw = false) :
    s.setContent c = s := by
  simp [DOMElement.setContent, hc, hdraw]

theorem setContent_idem (s : DOMElement) (h : s._inDraw = false) (c : String) :
    (s.setContent c).setContent c = s.setContent c :=
  setContent_self _ c (setContent_content s c) (by rw [setContent_inDraw]; exact h)

theorem setContent_queue_delta (s : DOMElement) (c : String) :
    ∃ d, (s.setContent c)._changeQueue = s._changeQueue ++ d ∧
      (d = [] ∨ d = [QItem.cmd Cmd.CHANGE_CONTENT, QItem.val (JSVal.str c)]) := by
  by_cases hg : s.value.content ≠ c ∨ s._inDraw = true
  · by_cases hi : s._initialized = true
    · refine ⟨[QItem.cmd Cmd.CHANGE_CONTENT, QItem.val (JSVal.str c)], ?_, Or.inr rfl⟩
      simp only [DOMElement.setContent, if_pos hg]
      split_ifs <;> simp_all [requestUpdate_changeQueue]
    · refine ⟨[], ?_, Or.inl rfl⟩
      simp only [DOMElement.setContent, if_pos hg]
      split_ifs <;> simp_all [requestUpdate_changeQueue]
  · refine ⟨[], ?_, Or.inl rfl⟩
    simp [DOMElement.setContent, if_neg hg]

theorem addClass_inDraw (s : DOMElement) (c : String) :
    (s.addClass c)._inDraw = s._inDraw := by
  simp only [DOMElement.addClass]
  split_ifs <;> simp_all [requestUpdate_inDraw]

theorem addClass_has (s : DOMElement) (c : String) :
    truthyB (jsGet (s.addClass c).value.classes c) = true := by
  simp only [DOMElement.addClass]
  split_ifs with h <;> simp_all [requestUpdate_value, jsGet_jsSet, truthyB]

theorem addClass_self (s : DOMElement) (c : String)
    (hc : truthyB (jsGet s.value.classes c) = true) (hdraw : s._inDraw = false) :
    s.addClass c = s := by
  simp [DOMElement.addClass, hc, hdraw]

theorem addClass_idem (s : DOMElement) (h : s._inDraw = false) (c : String) :
    (s.addClass c).addClass c = s.addClass c :=
  addClass_self _ c (addClass_has s c) (by rw [addClass_inDraw]; exact h)

theorem addClass_queue_delta (s : DOMElement) (c : String) :
    ∃ d, (s.addClass c)._changeQueue = s._changeQueue ++ d ∧
      (d = [] ∨ d = [QItem.cmd Cmd.ADD_CLASS, QItem.val (JSVal.str c)]) := by
  by_cases hg : truthyB (jsGet s.value.classes c) = false ∨ s._inDraw = true
  · by_cases hi : s._initialized = true
    · refine ⟨[QItem.cmd Cmd.ADD_CLASS, QItem.val (JSVal.str c)], ?_, Or.inr rfl⟩
      simp only [DOMElement.addClass, if_pos hg]
      split_ifs <;> simp_all [requestUpdate_changeQueue]
    · refine ⟨[], ?_, Or.inl rfl⟩
      simp only [DOMElement.addClass, if_pos hg]
      split_ifs <;> simp_all [requestUpdate_changeQueue]
  · refine ⟨[], ?_, Or.inl rfl⟩
    simp [DOMElement.addClass, if_neg hg]

theorem setCutoutState_inDraw (s : DOMElement) (b : Bool) :
    (s.setCutoutState b)._inDraw = s._inDraw := by
  simp only [DOMElement.setCutoutState]
  split_ifs <;> simp_all [requestUpdate_inDraw]

theorem setCutoutState_cutout (s : DOMElement) (b : Bool) :
    (s.setCutoutState b).value.cutout = b := by
  simp only [DOMElement.setCutoutState]
  split_ifs with h <;> simp_all [requestUpdate_value]

theorem setCutoutState_self (s : DOMElement) (b : Bool)
    (hc : s.value.cutout = b) (hdraw : s._inDraw = false) :
    s.setCutoutState b = s := by
  simp [DOMElement.setCutoutState, hc, hdraw]

theorem setCutoutState_idem (s : DOMElement) (h : s._inDraw = false) (b : Bool) :
    (s.setCutoutState b).setCutoutState b = s.setCutoutState b :=
  setCutoutState_self _ b (setCutoutState_cutout s b) (by rw [setCutoutState_inDraw]; exact h)

theorem setCutoutState_queue_delta (s : DOMElement) (b : Bool) :
    ∃ d, (s.setCutoutState b)._changeQueue = s._changeQueue ++ d ∧
      (d = [] ∨ d = [QItem.cmd Cmd.GL_CUTOUT_STATE, QItem.val (JSVal.bool b)]) := by
  by_cases hg : s.value.cutout ≠ b ∨ s._inDraw = true
  · by_cases hi : s._initialized = true
    · refine ⟨[QItem.cmd Cmd.GL_CUTOUT_STATE, QItem.val (JSVal.bool b)], ?_, Or.inr rfl⟩
      simp only [DOMElement.setCutoutState, if_pos hg]
      split_ifs <;> simp_all [requestUpdate_changeQueue]
    · refine ⟨[], ?_, Or.inl rfl⟩
      simp only [DOMElement.setCutoutState, if_pos hg]
      split_ifs <;> simp_all [requestUpdate_changeQueue]
  · refine ⟨[], ?_, Or.inl rfl⟩
    simp [DOMElement.setCutoutState, if_neg hg]

/-- C7: each diff-and-queue mutator (`setProperty`, `setAttribute`,
`setContent`, `addClass`, `setCutoutState`) called twice in succession
with the same key/value outside forced resync enqueues at most one
command in total: the first call appends either nothing or exactly the
one encoded command, and the second call returns the state (Presentation
State and queue included) unchanged. -/
theorem mutators_idempotent (s : DOMElement) (h : s._inDraw = false)
    (k : String) (v : JSVal) (a : String) (w : JSVal) (c : String)
    (cl : String) (b : Bool) :
    ((s.setProperty k v).setProperty k v = s.setProperty k v ∧
      ∃ d, (s.setProperty k v)._changeQueue = s._changeQueue ++ d ∧
        (d = [] ∨ d = [QItem.cmd Cmd.CHANGE_PROPERTY, QItem.val (JSVal.str k), QItem.val v])) ∧
    ((s.setAttribute a w).setAttribute a w = s.setAttribute a w ∧
      ∃ d, (s.setAttribute a w)._changeQueue = s._changeQueue ++ d ∧
        (d = [] ∨ d = [QItem.cmd Cmd.CHANGE_ATTRIBUTE, QItem.val (JSVal.str a), QItem.val w])) ∧
    ((s.setContent c).setContent c = s.setContent c ∧
      ∃ d, (s.setContent c)._changeQueue = s._changeQueue ++ d ∧
        (d = [] ∨ d = [QItem.cmd Cmd.CHANGE_CONTENT, QItem.val (JSVal.str c)])) ∧
    ((s.addClass cl).addClass cl = s.addClass cl ∧
      ∃ d, (s.addClass cl)._changeQueue = s._changeQueue ++ d ∧
        (d = [] ∨ d = [QItem.cmd Cmd.ADD_CLASS, QItem.val (JSVal.str cl)])) ∧
    ((s.setCutoutState b).setCutoutState b = s.setCutoutState b ∧
      ∃ d, (s.setCutoutState b)._changeQueue = s._changeQueue ++ d ∧
        (d = [] ∨ d = [QItem.cmd Cmd.GL_CUTOUT_STATE, QItem.val (JSVal.bool b)])) :=
  ⟨⟨setProperty_idem s h k v, setProperty_queue_delta s k v⟩,
   ⟨setAttribute_idem s h a w, setAttribute_queue_delta s a w⟩,
   ⟨setContent_idem s h c, setContent_queue_delta s c⟩,
   ⟨addClass_idem s h cl, addClass_queue_delta s cl⟩,
   ⟨setCutoutState_idem s h b, setCutoutState_queue_delta s b⟩⟩

/-- Witness for the C7 theorem at a concrete mounted adapter and
concrete keys/values. -/
theorem mutators_idempotent_witness :
    mounted0._inDraw = false ∧
    (((mounted0.setProperty "k" (JSVal.str "v")).setProperty "k" (JSVal.str "v") =
        mounted0.setProperty "k" (JSVal.str "v") ∧
      ∃ d, (mounted0.setProperty "k" (JSVal.str "v"))._changeQueue = mounted0._changeQueue ++ d ∧
        (d = [] ∨ d = [QItem.cmd Cmd.CHANGE_PROPERTY, QItem.val (JSVal.str "k"),
          QItem.val (JSVal.str "v")])) ∧
    ((mounted0.setAttribute "a" (JSVal.str "w")).setAttribute "a" (JSVal.str "w") =
        mounted0.setAttribute "a" (JSVal.str "w") ∧
      ∃ d, (mounted0.setAttribute "a" (JSVal.str "w"))._changeQueue = mounted0._changeQueue ++ d ∧
        (d = [] ∨ d = [QItem.cmd Cmd.CHANGE_ATTRIBUTE, QItem.val (JSVal.str "a"),
          QItem.val (JSVal.str "w")])) ∧
    ((mounted0.setContent "c").setContent "c" = mounted0.setContent "c" ∧
      ∃ d, (mounted0.setContent "c")._changeQueue = mounted0._changeQueue ++ d ∧
        (d = [] ∨ d = [QItem.cmd Cmd.CHANGE_CONTENT, QItem.val (JSVal.str "c")])) ∧
    ((mounted0.addClass "cl").addClass "cl" = mounted0.addClass "cl" ∧
      ∃ d, (mounted0.addClass "cl")._changeQueue = mounted0._changeQueue ++ d ∧
        (d = [] ∨ d = [QItem.cmd Cmd.ADD_CLASS, QItem.val (JSVal.str "cl")])) ∧
    ((mounted0.setCutoutState false).setCutoutState false = mounted0.setCutoutState false ∧
      ∃ d, (mounted0.setCutoutState false)._changeQueue = mounted0._changeQueue ++ d ∧
        (d = [] ∨ d = [QItem.cmd Cmd.GL_CUTOUT_STATE, QItem.val (JSVal.bool false)]))) :=
  ⟨rfl, mutators_idempotent mounted0 rfl "k" (JSVal.str "v") "a" (JSVal.str "w") "c" "cl" false⟩

/-- C8: on a mounted adapter, `onSizeChange(width, height)` enqueues a
size-change command whose operand per axis is the literal pixel value
when that axis's sizing mode differs from the renderer-measured mode,
and otherwise is the sizing-mode boolean itself (`false`); and it always
arms a flush (afterwards a scheduling request is outstanding, a new one
being issued exactly when none was outstanding before). -/
theorem onSizeChange_spec (s : DOMElement) (nd : NodeData)
    (hi : s._initialized = true) (hn : s._node = some nd) (w h : Int) :
    (s.onSizeChange w h).map (fun t => t._changeQueue) =
      some (s._changeQueue ++
        [QItem.cmd Cmd.CHANGE_SIZE,
         if nd.sizeMode.1 ≠ Size.RENDER then QItem.val (JSVal.num w)
           else QItem.val (JSVal.bool false),
         if nd.sizeMode.2.1 ≠ Size.RENDER then QItem.val (JSVal.num h)
           else QItem.val (JSVal.bool false)]) ∧
    (s.onSizeChange w h).map (fun t => t._requestingUpdate) = some true ∧
    (s.onSizeChange w h).map (fun t => t.requests) =
      some (if s._requestingUpdate then s.requests else s.requests + 1) := by
  by_cases hru : s._requestingUpdate = true
  · by_cases hx : nd.sizeMode.1 = Size.RENDER <;>
      by_cases hy : nd.sizeMode.2.1 = Size.RENDER <;>
        simp [DOMElement.onSizeChange, DOMElement._requestUpdate, hi, hn, hru, hx, hy]
  · by_cases hx : nd.sizeMode.1 = Size.RENDER <;>
      by_cases hy : nd.sizeMode.2.1 = Size.RENDER <;>
        simp [DOMElement.onSizeChange, DOMElement._requestUpdate, hi, hn, hru, hx, hy]

/-- Witness for the C8 theorem: a concrete mounted adapter whose node
has no renderer-measured axis, at a concrete width and height. -/
theorem onSizeChange_spec_witness :
    mounted0._initialized = true ∧ mounted0._node = some nd0 ∧
    ((mounted0.onSizeChange 100 50).map (fun t => t._changeQueue) =
      some (mounted0._changeQueue ++
        [QItem.cmd Cmd.CHANGE_SIZE,
         if nd0.sizeMode.1 ≠ Size.RENDER then QItem.val (JSVal.num 100)
           else QItem.val (JSVal.bool false),
         if nd0.sizeMode.2.1 ≠ Size.RENDER then QItem.val (JSVal.num 50)
           else QItem.val (JSVal.bool false)]) ∧
    (mounted0.onSizeChange 100 50).map (fun t => t._requestingUpdate) = some true ∧
    (mounted0.onSizeChange 100 50).map (fun t => t.requests) =
      some (if mounted0._requestingUpdate then mounted0.requests else mounted0.requests + 1)) :=
  ⟨rfl, rfl, onSizeChange_spec mounted0 nd0 rfl rfl 100 50⟩

theorem toInt32_eq_self (n : Int) (h0 : -2 ^ 31 ≤ n) (h1 : n < 2 ^ 31) :
    toInt32 n = n := by
  unfold toInt32
  omega

/-- C10: delivering the measurement event `resize` through `onReceive`
overwrites both components of `renderSize` with the payload's two values
(for values representable in the Int32Array) and arms a flush; and every
event, the measurement event included, is dispatched through the
callback registry. -/
theorem onReceive_spec (s : DOMElement) (nd : NodeData) (hn : s._node = some nd)
    (p : Payload) (h0 : -2 ^ 31 ≤ p.val.1) (h1 : p.val.1 < 2 ^ 31)
    (h2 : -2 ^ 31 ≤ p.val.2) (h3 : p.val.2 < 2 ^ 31) :
    (s.onReceive "resize" p).value.renderSize = p.val ∧
    (s.onReceive "resize" p)._requestingUpdate = true ∧
    (s.onReceive "resize" p).callbacks = s.callbacks ++ [("resize", p)] ∧
    ∀ e q, (s.onReceive e q).callbacks = s.callbacks ++ [(e, q)] := by
  refine ⟨?_, ?_, ?_, ?_⟩
  · simp only [DOMElement.onReceive]
    split_ifs <;>
      simp_all [DOMElement._requestUpdate, toInt32_eq_self _ h0 h1, toInt32_eq_self _ h2 h3]
  · simp only [DOMElement.onReceive]
    split_ifs <;> simp_all [DOMElement._requestUpdate, hn]
  · simp only [DOMElement.onReceive]
    split_ifs <;> simp_all [DOMElement._requestUpdate]
  · intro e q
    simp only [DOMElement.onReceive]
    split_ifs <;> simp_all [DOMElement._requestUpdate]

/-- Witness for the C10 theorem at a concrete mounted adapter and a
concrete `(300, 200)` measurement payload. -/
theorem onReceive_spec_witness :
    mounted0._node = some nd0 ∧
    (-2 ^ 31 ≤ (Payload.mk (300, 200)).val.1 ∧ (Payload.mk (300, 200)).val.1 < 2 ^ 31 ∧
     -2 ^ 31 ≤ (Payload.mk (300, 200)).val.2 ∧ (Payload.mk (300, 200)).val.2 < 2 ^ 31) ∧
    ((mounted0.onReceive "resize" (Payload.mk (300, 200))).value.renderSize =
      (Payload.mk (300, 200)).val ∧
     (mounted0.onReceive "resize" (Payload.mk (300, 200)))._requestingUpdate = true ∧
     (mounted0.onReceive "resize" (Payload.mk (300, 200))).callbacks =
       mounted0.callbacks ++ [("resize", Payload.mk (300, 200))] ∧
     ∀ e q, (mounted0.onReceive e q).callbacks = mounted0.callbacks ++ [(e, q)]) :=
  ⟨rfl, ⟨by decide, by decide, by decide, by decide⟩,
   onReceive_spec mounted0 nd0 rfl (Payload.mk (300, 200))
     (by decide) (by decide) (by decide) (by decide)⟩
